import Mathlib

/-! The webook user module: handlers, service, repository.

Shallow embedding of `webook/internal/web/user.go`, `webook/internal/service/user.go`
and `webook/internal/repository/user.go`.

* The regular expressions of `NewUserHandler` are given as syntax trees and run by a
  backtracking matcher that follows `github.com/dlclark/regexp2` with options `None`.
* Handlers are functions from their inputs (bound request, session content, answers of the
  collaborators) to the trace of effects they perform on the `gin.Context`.
-/

namespace webook

/-! ## Errors and dynamic values -/

/-- Go `error` values, compared with `==` by identity.  `repository.ErrUserDuplicateEmail`
and `service.ErrUserDuplicateEmail` are aliases of `dao.ErrUserDuplicateEmail`, hence one value. -/
inductive Error where
  | ErrUserDuplicateEmail
  | ErrUserNotFound
  | ErrInvalidUserOrPassword
  | other (msg : String)
  deriving DecidableEq

/-- Go `interface{}` values as far as the handlers look at them. -/
inductive Any where
  | nil
  | int64 (v : Int)
  | int (v : Int)
  | string (s : String)
  deriving DecidableEq

/-! ## regexp2 (options `None`) -/

namespace regexp2

/-- Membership of the code points above ASCII in the Unicode general categories that `\d`
and `\w` consult; the tables belong to the Go runtime, not to this repository. -/
structure UnicodeTables where
  L : Char → Bool
  Mn : Char → Bool
  Nd : Char → Bool
  Pc : Char → Bool

/-- Class `\d` without the ECMAScript option: category `Nd`. Below 128 these are `0`-`9`. -/
def DigitClass (T : UnicodeTables) (c : Char) : Bool :=
  if c.toNat < 128 then c.isDigit else T.Nd c

/-- Class `\w` without the ECMAScript option: categories `L`, `Mn`, `Nd`, `Pc`.
Below 128 these are the letters, the digits and `_`. -/
def WordClass (T : UnicodeTables) (c : Char) : Bool :=
  if c.toNat < 128 then (c.isAlpha || c.isDigit || c == '_')
  else (T.L c || T.Mn c || T.Nd c || T.Pc c)

/-- One item between `[` and `]`. -/
inductive SetItem where
  | single (c : Char)
  | range (lo hi : Char)
  | digit
  | word

/-- Does the item contain the rune? -/
def SetItem.CharIn (T : UnicodeTables) : SetItem → Char → Bool
  | .single x, c => c == x
  | .range lo hi, c => decide (lo.toNat ≤ c.toNat) && decide (c.toNat ≤ hi.toNat)
  | .digit, c => DigitClass T c
  | .word, c => WordClass T c

/-- Does the (non-negated) set contain the rune? -/
def CharIn (T : UnicodeTables) (items : List SetItem) (c : Char) : Bool :=
  items.any (fun i => i.CharIn T c)

/-- Regex tree, with the node kinds of regexp2 that the six patterns produce. -/
inductive Node where
  /-- the empty pattern -/
  | Empty
  /-- `^` without option `Multiline`: the start of the input -/
  | Beginning
  /-- `$` without option `Multiline`: the end of the input, or before a final line feed -/
  | EndZ
  /-- a literal rune -/
  | One (c : Char)
  /-- any rune but the given one; `.` is `Notone '\n'` -/
  | Notone (c : Char)
  /-- `[...]`, `\d`, `\w` -/
  | Set (items : List SetItem)
  | Concatenate (a b : Node)
  | Alternate (a b : Node)
  /-- `( ... )` -/
  | Capture (r : Node)
  /-- `(?= ... )` -/
  | Require (r : Node)
  /-- greedy `*`, `+`, `{n}`, `{n,}`, `{n,m}`; no `max` is unbounded -/
  | Loop (min : Nat) (max : Option Nat) (r : Node)

/-- Position of the matcher in the rune slice: runes consumed, runes to the right. -/
structure Cursor where
  pos : Nat
  rest : List Char
  deriving DecidableEq

/-- Consume one rune that satisfies `p`. -/
def stepChar (p : Char → Bool) (c : Cursor) : List Cursor :=
  match c.rest with
  | [] => []
  | x :: xs => if p x then [⟨c.pos + 1, xs⟩] else []

/-- Is another iteration allowed after `n` of them? -/
def underMax (n : Nat) : Option Nat → Bool
  | none => true
  | some m => decide (n < m)

/-- Greedy loop over `step` with backtracking: all cursors reachable after `n`, `n+1`, ...
iterations (at least `min`, at most `max` in total), longest first.  An iteration that
consumes nothing ends the loop, so `fuel` above the number of runes left is never used up;
every loop body of the six patterns consumes at least one rune. -/
def loopRun (step : Cursor → List Cursor) (min : Nat) (max : Option Nat) :
    Nat → Nat → Cursor → List Cursor
  | 0, _, _ => []
  | fuel + 1, n, c =>
    (if underMax n max then
      ((step c).filter (fun d => decide (d.rest.length < c.rest.length))).flatMap
        (loopRun step min max fuel (n + 1))
     else []) ++ (if min ≤ n then [c] else [])

/-- All cursors at which a match of the node that starts at `c` can end, in the order the
backtracking matcher tries them. -/
def run (T : UnicodeTables) : Node → Cursor → List Cursor
  | .Empty, c => [c]
  | .Beginning, c => if c.pos = 0 then [c] else []
  | .EndZ, c => if c.rest = [] ∨ c.rest = ['\n'] then [c] else []
  | .One x, c => stepChar (fun y => y == x) c
  | .Notone x, c => stepChar (fun y => y != x) c
  | .Set items, c => stepChar (CharIn T items) c
  | .Concatenate a b, c => (run T a c).flatMap (run T b)
  | .Alternate a b, c => run T a c ++ run T b c
  | .Capture r, c => run T r c
  | .Require r, c => if (run T r c).isEmpty then [] else [c]
  | .Loop min max r, c => loopRun (run T r) min max (c.rest.length + 1) 0 c

/-- Scan for a match that starts at the cursor or to its right. -/
def scan (T : UnicodeTables) (tree : Node) : Nat → List Char → Bool
  | pos, [] => !(run T tree ⟨pos, []⟩).isEmpty
  | pos, x :: xs => !(run T tree ⟨pos, x :: xs⟩).isEmpty || scan T tree (pos + 1) xs

/-- A compiled pattern. -/
structure Regexp where
  tree : Node

/-- `Regexp.MatchString`: is there a match anywhere in the runes of `s`?  The error is the
match timeout, which is off (`DefaultMatchTimeout` is forever), so it is always `nil`. -/
def Regexp.MatchString (T : UnicodeTables) (re : Regexp) (s : String) : Bool × Option Error :=
  (scan T re.tree 0 s.toList, none)

/-- Concatenation of the nodes of a sequence, left to right. -/
def seq : List Node → Node
  | [] => .Empty
  | [a] => a
  | a :: b :: rest => .Concatenate a (seq (b :: rest))

/-- `\w` -/
def word : Node := .Set [.word]

/-- `\d` -/
def digit : Node := .Set [.digit]

/-- `.` without option `Singleline` -/
def anyChar : Node := .Notone '\n'

end regexp2

open regexp2

/-! ## The patterns of `NewUserHandler` -/

/-- The tree of `emailRegexPattern`,
`^\w+([-+.]\w+)*@\w+([-.]\w+)*\.\w+([-.]\w+)*$`. -/
def emailRegexTree : Node :=
  seq [.Beginning,
    .Loop 1 none word,
    .Loop 0 none (.Capture (seq [.Set [.single '-', .single '+', .single '.'], .Loop 1 none word])),
    .One '@',
    .Loop 1 none word,
    .Loop 0 none (.Capture (seq [.Set [.single '-', .single '.'], .Loop 1 none word])),
    .One '.',
    .Loop 1 none word,
    .Loop 0 none (.Capture (seq [.Set [.single '-', .single '.'], .Loop 1 none word])),
    .EndZ]

/-- The set `[$@$!%*#?&]` of the password pattern. -/
def passwordSpecials : List SetItem :=
  [.single '$', .single '@', .single '$', .single '!', .single '%', .single '*',
   .single '#', .single '?', .single '&']

/-- The set `[A-Za-z\d$@$!%*#?&]` of the password pattern. -/
def passwordChars : List SetItem :=
  [.range 'A' 'Z', .range 'a' 'z', .digit] ++ passwordSpecials

/-- The tree of `passwordRegexPattern`,
`^(?=.*[A-Za-z])(?=.*\d)(?=.*[$@$!%*#?&])[A-Za-z\d$@$!%*#?&]{8,}$`. -/
def passwordRegexTree : Node :=
  seq [.Beginning,
    .Require (seq [.Loop 0 none anyChar, .Set [.range 'A' 'Z', .range 'a' 'z']]),
    .Require (seq [.Loop 0 none anyChar, digit]),
    .Require (seq [.Loop 0 none anyChar, .Set passwordSpecials]),
    .Loop 8 none (.Set passwordChars),
    .EndZ]

/-- The tree of `birthdayRegexPattern`, `^(19|20)\d{2}-\d{2}-\d{2}$`. -/
def birthdayRegexTree : Node :=
  seq [.Beginning,
    .Capture (.Alternate (seq [.One '1', .One '9']) (seq [.One '2', .One '0'])),
    .Loop 2 (some 2) digit,
    .One '-',
    .Loop 2 (some 2) digit,
    .One '-',
    .Loop 2 (some 2) digit,
    .EndZ]

/-- The tree of `nicknameRegexPattern`, `^[\u4e00-\u9fa5_a-zA-Z0-9]{2,10}$`. -/
def nicknameRegexTree : Node :=
  seq [.Beginning,
    .Loop 2 (some 10) (.Set [.range '\u4e00' '\u9fa5', .single '_', .range 'a' 'z',
      .range 'A' 'Z', .range '0' '9']),
    .EndZ]

/-- The tree of `introductionRegexPattern`, `^[\u4e00-\u9fa5，。]{10,300}$`. -/
def introductionRegexTree : Node :=
  seq [.Beginning,
    .Loop 10 (some 300) (.Set [.range '\u4e00' '\u9fa5', .single '，', .single '。']),
    .EndZ]

/-- The tree of `locationRegexPattern`, `^[\u4e00-\u9fa5]{3,60}$`. -/
def locationRegexTree : Node :=
  seq [.Beginning, .Loop 3 (some 60) (.Set [.range '\u4e00' '\u9fa5']), .EndZ]


/-! ## Data model -/

namespace domain

/-- `domain.User`, with the fields the three files use. -/
structure User where
  Id : Int := 0
  Email : String := ""
  Password : String := ""
  NickName : String := ""
  Birthday : String := ""
  Introduction : String := ""
  Location : String := ""
  Avatar : String := ""
  deriving DecidableEq

end domain

namespace dao

/-- `dao.User`, with the fields the repository fills or reads. -/
structure User where
  Id : Int := 0
  Email : String := ""
  Password : String := ""
  NickName : String := ""
  Birthday : String := ""
  Introduction : String := ""
  Location : String := ""
  Avatar : String := ""
  deriving DecidableEq

/-- `dao.UserDAO`: its methods are outside the three files; each field is what the method
answers in the run under consideration. -/
structure UserDAO where
  Insert : User → Option Error
  FindByEmail : String → User × Option Error
  FindById : Int → User × Option Error
  Update : User → Option Error

end dao

/-- `sessions.Options`, the fields the handlers set. -/
structure SessionOptions where
  Secure : Bool := false
  HttpOnly : Bool := false
  MaxAge : Int := 0
  deriving DecidableEq

/-- `UserClaims`; `ExpiresAt` of the embedded `jwt.RegisteredClaims` in nanoseconds. -/
structure UserClaims where
  ExpiresAt : Int
  Uid : Int
  UserAgent : String
  deriving DecidableEq

/-- `ProfileResp` of `Profile`. -/
structure ProfileResp where
  Email : String
  Birthday : String
  Nickname : String
  Introduction : String
  Location : String
  deriving DecidableEq

/-- What is handed to `ctx.JSON`. -/
inductive JsonBody where
  | profile (r : ProfileResp)
  | text (s : String)
  deriving DecidableEq

/-- One effect of a run, in program order. -/
inductive Event where
  /-- `r.dao.Insert(ctx, u)` -/
  | daoInsert (u : dao.User)
  /-- `r.dao.Update(ctx, u)` -/
  | daoUpdate (u : dao.User)
  /-- `r.dao.FindById(ctx, id)` -/
  | daoFindById (id : Int)
  /-- `r.dao.FindByEmail(ctx, email)` -/
  | daoFindByEmail (email : String)
  /-- `u.svc.SignUp(ctx, user)` -/
  | svcSignUp (u : domain.User)
  /-- `u.svc.Login(ctx, email, password)` -/
  | svcLogin (email password : String)
  /-- `u.svc.Edit(ctx, user)` -/
  | svcEdit (u : domain.User)
  /-- `u.svc.GetProfile(ctx, id)` -/
  | svcGetProfile (id : Int)
  /-- `ctx.Bind` failed and answered `400` itself -/
  | bindAbort (code : Nat)
  /-- `ctx.String(code, body)` -/
  | ctxString (code : Nat) (body : String)
  /-- `ctx.JSON(code, body)` -/
  | ctxJSON (code : Nat) (body : JsonBody)
  /-- `ctx.Header(key, value)` -/
  | ctxHeader (key value : String)
  /-- `sess.Set(key, val)` -/
  | sessSet (key : String) (val : Any)
  /-- `sess.Options(o)` -/
  | sessOptions (o : SessionOptions)
  /-- `sess.Save()` -/
  | sessSave
  deriving DecidableEq

/-- Does the event write a response body? -/
def Event.isBody : Event → Bool
  | .ctxString _ _ => true
  | .ctxJSON _ _ => true
  | _ => false

/-- Is the event a call of a `UserService` method? -/
def Event.isSvcCall : Event → Bool
  | .svcSignUp _ => true
  | .svcLogin _ _ => true
  | .svcEdit _ => true
  | .svcGetProfile _ => true
  | _ => false

/-- Does the event put a login state in place (session entry or token header)? -/
def Event.isLoginState : Event → Bool
  | .sessSet _ _ => true
  | .ctxHeader _ _ => true
  | _ => false

/-- How a handler run ends: the effects it performed, and whether it ended in a Go panic
instead of returning. -/
structure Outcome where
  trace : List Event
  panicked : Bool
  deriving DecidableEq

/-- The handler returned. -/
def Outcome.ret (t : List Event) : Outcome := ⟨t, false⟩

/-- The handler panicked after the effects `t`. -/
def Outcome.panic (t : List Event) : Outcome := ⟨t, true⟩

/-- The response bodies written, in order. -/
def Outcome.bodies (o : Outcome) : List Event := o.trace.filter Event.isBody

/-- The libraries and the clock: what they answer in the run under consideration. -/
structure Runtime where
  unicode : regexp2.UnicodeTables
  /-- `bcrypt.GenerateFromPassword(password, cost)`, the hash as a string -/
  GenerateFromPassword : String → Nat → String × Option Error
  /-- the compact token that HS512 signing gives for the claims and the key -/
  signHS512 : UserClaims → String → String
  /-- `time.Now()` in nanoseconds -/
  Now : Int

/-- `jwt.NewWithClaims(jwt.SigningMethodHS512, claims).SignedString(key)` for a `[]byte`
key.  With HMAC signing, a `[]byte` key and claims made of a numeric date, an int64 and a
string, neither the encoding of the claims nor the signing has a failing path, so the
error is always `nil`. -/
def SignedString (rt : Runtime) (claims : UserClaims) (key : String) : String × Option Error :=
  (rt.signHS512 claims key, none)

/-- `time.Minute` in nanoseconds. -/
def Minute : Int := 60 * 1000000000

/-- `jwt.NewNumericDate`: truncation to `jwt.TimePrecision`, one second. -/
def NewNumericDate (t : Int) : Int := t - t % 1000000000

/-- `bcrypt.DefaultCost`. -/
def DefaultCost : Nat := 10

/-! ## `repository/user.go` -/

/-- `UserRepository`. -/
structure UserRepository where
  dao : dao.UserDAO

/-- `UserRepository.FindByEmail`. -/
def UserRepository.FindByEmail (r : UserRepository) (email : String) :
    (domain.User × Option Error) × List Event :=
  let (u, err) := r.dao.FindByEmail email
  if err ≠ none then
    (({}, err), [.daoFindByEmail email])
  else
    (({ Id := u.Id, Email := u.Email, Password := u.Password }, none), [.daoFindByEmail email])

/-- `UserRepository.Create`. -/
def UserRepository.Create (r : UserRepository) (u : domain.User) : Option Error × List Event :=
  (r.dao.Insert { Email := u.Email, Password := u.Password },
   [.daoInsert { Email := u.Email, Password := u.Password }])

/-- `UserRepository.FindById`. -/
def UserRepository.FindById (r : UserRepository) (id : Int) :
    (domain.User × Option Error) × List Event :=
  let (u, err) := r.dao.FindById id
  if err ≠ none then
    (({}, err), [.daoFindById id])
  else
    (({ Email := u.Email, NickName := u.NickName, Birthday := u.Birthday,
        Introduction := u.Introduction, Location := u.Location, Avatar := u.Avatar }, none),
     [.daoFindById id])

/-- `UserRepository.Edit`. -/
def UserRepository.Edit (r : UserRepository) (u : domain.User) : Option Error × List Event :=
  (r.dao.Update { Id := u.Id, Birthday := u.Birthday, NickName := u.NickName,
                  Location := u.Location, Introduction := u.Introduction, Avatar := u.Avatar },
   [.daoUpdate { Id := u.Id, Birthday := u.Birthday, NickName := u.NickName,
                 Location := u.Location, Introduction := u.Introduction, Avatar := u.Avatar }])

/-! ## `service/user.go` -/

/-- `UserService`.  Only `Signup` is in `service/user.go`; `Login`, `Edit` and `GetProfile`,
which the handlers call, are not, and the fields give what they answer. -/
structure UserService where
  repo : UserRepository
  Login : String → String → domain.User × Option Error
  Edit : domain.User → Option Error
  GetProfile : Int → domain.User × Option Error

/-- `UserService.Signup`. -/
def UserService.Signup (rt : Runtime) (svc : UserService) (u : domain.User) :
    Option Error × List Event :=
  let (hash, err) := rt.GenerateFromPassword u.Password DefaultCost
  if err ≠ none then
    (err, [])
  else
    svc.repo.Create { u with Password := hash }


/-! ## `web/user.go` -/

/-- `http.StatusOK`. -/
def StatusOK : Nat := 200

/-- `http.StatusBadRequest`, which a failed `ctx.Bind` answers. -/
def StatusBadRequest : Nat := 400

/-- `http.StatusInternalServerError`. -/
def StatusInternalServerError : Nat := 500

/-- `UserHandler`. -/
structure UserHandler where
  svc : UserService
  emailExp : Regexp
  passwordExp : Regexp
  birthdayExp : Regexp
  nicknameExp : Regexp
  introductionExp : Regexp
  locationExp : Regexp

/-- `NewUserHandler`. -/
def NewUserHandler (svc : UserService) : UserHandler where
  svc := svc
  emailExp := ⟨emailRegexTree⟩
  passwordExp := ⟨passwordRegexTree⟩
  birthdayExp := ⟨birthdayRegexTree⟩
  nicknameExp := ⟨nicknameRegexTree⟩
  introductionExp := ⟨introductionRegexTree⟩
  locationExp := ⟨locationRegexTree⟩

/-- `SignUpReq`. -/
structure SignUpReq where
  Email : String
  ConfirmPassword : String
  Password : String
  deriving DecidableEq

/-- `LoginReq`. -/
structure LoginReq where
  Email : String
  Password : String
  deriving DecidableEq

/-- The request type `editReq` of `Edit`. -/
structure EditReq where
  NickName : String
  Birthday : String
  Introduction : String
  Location : String
  Avatar : String
  deriving DecidableEq

/-- The session: `sess.Get(key)`, `nil` for a key that is not set. -/
abbrev Session := String → Any

/-- `UserHandler.SignUp`; `bound` is what `ctx.Bind(&req)` gave, `none` when it failed.
The handler calls `u.svc.SignUp`; `service/user.go` declares `Signup`, the one signup
method of `UserService`, which is taken to be the method called. -/
def UserHandler.SignUp (rt : Runtime) (u : UserHandler) (bound : Option SignUpReq) : Outcome :=
  match bound with
  | none => .ret [.bindAbort StatusBadRequest]
  | some req =>
    let (ok, err) := u.emailExp.MatchString rt.unicode req.Email
    if err ≠ none then
      .ret [.ctxString StatusOK "系统错误"]
    else if !ok then
      .ret [.ctxString StatusOK "你的邮箱格式不对"]
    else if req.ConfirmPassword ≠ req.Password then
      .ret [.ctxString StatusOK "两次输入的密码不一致"]
    else
      let (ok, err) := u.passwordExp.MatchString rt.unicode req.Password
      if err ≠ none then
        .ret [.ctxString StatusOK "系统错误"]
      else if !ok then
        .ret [.ctxString StatusOK "密码至少8位,包含数字、特殊字符"]
      else
        let user : domain.User := { Email := req.Email, Password := req.Password }
        let (err, t) := u.svc.Signup rt user
        if err = some .ErrUserDuplicateEmail then
          .ret (.svcSignUp user :: t ++ [.ctxString StatusOK "邮箱冲突"])
        else if err ≠ none then
          .ret (.svcSignUp user :: t ++ [.ctxString StatusOK "系统异常"])
        else
          .ret (.svcSignUp user :: t ++ [.ctxString StatusOK "注册成功"])

/-- The signing key of `LoginJWT`. -/
def jwtKey : String := "95osj3fUD7fo0mlYdDbncXz4VD2igvf0"

/-- `UserHandler.LoginJWT`; `userAgent` is `ctx.Request.UserAgent()`. -/
def UserHandler.LoginJWT (rt : Runtime) (u : UserHandler) (bound : Option LoginReq)
    (userAgent : String) : Outcome :=
  match bound with
  | none => .ret [.bindAbort StatusBadRequest]
  | some req =>
    let (user, err) := u.svc.Login req.Email req.Password
    if err = some .ErrInvalidUserOrPassword then
      .ret [.svcLogin req.Email req.Password, .ctxString StatusOK "用户名或密码不对"]
    else if err ≠ none then
      .ret [.svcLogin req.Email req.Password, .ctxString StatusOK "系统错误"]
    else
      let claims : UserClaims :=
        { ExpiresAt := NewNumericDate (rt.Now + Minute), Uid := user.Id, UserAgent := userAgent }
      let (tokenStr, err) := SignedString rt claims jwtKey
      if err ≠ none then
        .ret [.svcLogin req.Email req.Password,
              .ctxString StatusInternalServerError "系统错误"]
      else
        .ret [.svcLogin req.Email req.Password, .ctxHeader "x-jwt-token" tokenStr,
              .ctxString StatusOK "登录成功"]

/-- `UserHandler.Login`. -/
def UserHandler.Login (u : UserHandler) (bound : Option LoginReq) : Outcome :=
  match bound with
  | none => .ret [.bindAbort StatusBadRequest]
  | some req =>
    let (user, err) := u.svc.Login req.Email req.Password
    if err = some .ErrInvalidUserOrPassword then
      .ret [.svcLogin req.Email req.Password, .ctxString StatusOK "用户名或密码不对"]
    else if err ≠ none then
      .ret [.svcLogin req.Email req.Password, .ctxString StatusOK "系统错误"]
    else
      .ret [.svcLogin req.Email req.Password,
            .sessSet "userId" (.int64 user.Id),
            .sessOptions { Secure := true, HttpOnly := true, MaxAge := 600 },
            .sessSave,
            .ctxString StatusOK "登录成功"]

/-- `UserHandler.Logout`. -/
def UserHandler.Logout (_u : UserHandler) : Outcome :=
  .ret [.sessOptions { MaxAge := -1 }, .sessSave, .ctxString StatusOK "退出登录成功"]

/-- One validation step of `Edit`: nothing for an empty field, else the answer that ends
the handler, or `none` to go on. -/
def editCheck (rt : Runtime) (exp : Regexp) (field : String) (msg : String) :
    Option (List Event) :=
  if field ≠ "" then
    let (ok, err) := exp.MatchString rt.unicode field
    if err ≠ none then
      some [.ctxString StatusOK "系统错误"]
    else if !ok then
      some [.ctxString StatusOK msg]
    else none
  else none

/-- The answer of `Edit` to a birthday that does not match. -/
def birthdayFormatMsg : String := "生日格式不对,必须以19或者20开头,正确例子1999-1-28"

/-- The answer of `Edit` to a nickname that does not match. -/
def nicknameFormatMsg : String := "昵称格式不对,至少2个中文字符,并且不能超过10个中文字符"

/-- The answer of `Edit` to an introduction that does not match. -/
def introductionFormatMsg : String :=
  "个人简介格式不对,至少10个中文字符,并且不能超过300个中文字符"

/-- The answer of `Edit` to a location that does not match. -/
def locationFormatMsg : String := "地址格式不对,至少3个中文字符,并且不能超过60个中文字符"

/-- `UserHandler.Edit`; `sess` is the session `sessions.Default(ctx)` gives. -/
def UserHandler.Edit (rt : Runtime) (u : UserHandler) (bound : Option EditReq)
    (sess : Session) : Outcome :=
  match bound with
  | none => .ret [.bindAbort StatusBadRequest]
  | some req =>
    match editCheck rt u.birthdayExp req.Birthday birthdayFormatMsg with
    | some t => .ret t
    | none =>
    match editCheck rt u.nicknameExp req.NickName nicknameFormatMsg with
    | some t => .ret t
    | none =>
    match editCheck rt u.introductionExp req.Introduction introductionFormatMsg with
    | some t => .ret t
    | none =>
    match editCheck rt u.locationExp req.Location locationFormatMsg with
    | some t => .ret t
    | none =>
    -- id := sess.Get("userId").(int64)
    match sess "userId" with
    | .int64 id =>
      let user : domain.User :=
        { Id := id, Birthday := req.Birthday, NickName := req.NickName,
          Introduction := req.Introduction, Location := req.Location }
      let err := u.svc.Edit user
      if err ≠ none then
        .ret [.svcEdit user, .ctxString StatusOK "编辑失败"]
      else
        .ret [.svcEdit user, .ctxString StatusOK "编辑成功"]
    | _ => .panic []

/-- `UserHandler.ProfileJWT`; `c` is what `ctx.Get("claims")` gave: `none` for a value
that is not a `*UserClaims`, `some none` for a nil `*UserClaims`, `some (some claims)` for
a pointer to claims. -/
def UserHandler.ProfileJWT (_u : UserHandler) (c : Option (Option UserClaims)) : Outcome :=
  -- claims, ok := c.(*UserClaims)
  match c with
  | none => .ret [.ctxString StatusOK "系统错误"]
  -- println(claims.Uid)
  | some none => .panic []
  | some (some _) => .ret [.ctxString StatusOK "你的 profile"]

/-- `UserHandler.Profile`. -/
def UserHandler.Profile (u : UserHandler) (sess : Session) : Outcome :=
  -- id := sess.Get("userId").(int64)
  match sess "userId" with
  | .int64 id =>
    let (user, err) := u.svc.GetProfile id
    .ret ([.svcGetProfile id]
      ++ (if err ≠ none then [.ctxString StatusOK "获取简介失败"] else [])
      ++ [.ctxJSON StatusOK (.profile
            { Email := user.Email, Birthday := user.Birthday, Nickname := user.NickName,
              Introduction := user.Introduction, Location := user.Location })])
  | _ => .panic []

/-- `UserHandler.Status`. -/
def UserHandler.Status (_u : UserHandler) : Outcome :=
  .ret [.ctxJSON StatusOK (.text "状态没问题")]


/-! ## Sample collaborators, for the concrete runs -/

/-- Tables that list no code point above ASCII. -/
def asciiTables : UnicodeTables :=
  ⟨fun _ => false, fun _ => false, fun _ => false, fun _ => false⟩

/-- `bcrypt.ErrPasswordTooLong`. -/
def ErrPasswordTooLong : Error := .other "bcrypt: password length exceeds 72 bytes"

/-- A runtime whose bcrypt refuses passwords of more than 72 bytes, as
`bcrypt.GenerateFromPassword` does. -/
def sampleRuntime : Runtime where
  unicode := asciiTables
  GenerateFromPassword := fun password _ =>
    if 72 < password.utf8ByteSize then ("", some ErrPasswordTooLong)
    else ("$2a$10$N9qo8uLOickgx2ZMRZoMyeIjZAgcfl7p92ldGxad68LJZdL17lhWy", none)
  signHS512 := fun _ _ => "eyJhbGciOiJIUzUxMiJ9.e30.c2ln"
  Now := 1700000000000000000

/-- A user record of the store. -/
def storedUser : dao.User :=
  { Id := 7, Email := "a@b.cc",
    Password := "$2a$10$N9qo8uLOickgx2ZMRZoMyeIjZAgcfl7p92ldGxad68LJZdL17lhWy",
    NickName := "tom", Birthday := "1999-01-28", Introduction := "", Location := "",
    Avatar := "a.png" }

/-- A store that holds `storedUser` only. -/
def sampleDAO : dao.UserDAO where
  Insert := fun u => if u.Email = storedUser.Email then some .ErrUserDuplicateEmail else none
  FindByEmail := fun email =>
    if email = storedUser.Email then (storedUser, none) else ({}, some .ErrUserNotFound)
  FindById := fun id =>
    if id = storedUser.Id then (storedUser, none) else ({}, some .ErrUserNotFound)
  Update := fun _ => none

/-- A service over `sampleDAO`: `Login` knows `storedUser` with password `abcdef1!`,
`GetProfile` fails. -/
def sampleService : UserService where
  repo := ⟨sampleDAO⟩
  Login := fun email password =>
    if email = "a@b.cc" ∧ password = "abcdef1!" then
      ({ Id := 7, Email := "a@b.cc" }, none)
    else ({}, some .ErrInvalidUserOrPassword)
  Edit := fun _ => none
  GetProfile := fun _ => ({}, some .ErrUserNotFound)

/-- A session after login of user 7. -/
def loggedIn : Session := fun key => if key = "userId" then .int64 7 else .nil

/-- A session without any entry. -/
def emptySession : Session := fun _ => .nil

/-- A password of 73 bytes that has a letter, a digit and a special character. -/
def longPassword : String :=
  "aaaaaaaaaaaaaaaaaaaaaaaaaaaaaaaaaaaaaaaaaaaaaaaaaaaaaaaaaaaaaaaaaaaaaaa1!"

/-! ## The password rule, in words -/

/-- An ASCII letter. -/
def isAsciiLetter (c : Char) : Bool :=
  (decide ('A'.toNat ≤ c.toNat) && decide (c.toNat ≤ 'Z'.toNat))
    || (decide ('a'.toNat ≤ c.toNat) && decide (c.toNat ≤ 'z'.toNat))

/-- One of the special characters `$@!%*#?&`. -/
def isSpecial (c : Char) : Bool :=
  ['$', '@', '!', '%', '*', '#', '?', '&'].contains c

/-- The password rule as the specification words it: at least 8 characters, each an ASCII
letter, a digit (as `\d` reads it) or a special character, and at least one letter, one
digit and one special character. -/
def strongPassword (T : UnicodeTables) (cs : List Char) : Bool :=
  decide (8 ≤ cs.length)
    && cs.all (fun c => isAsciiLetter c || DigitClass T c || isSpecial c)
    && cs.any isAsciiLetter && cs.any (DigitClass T) && cs.any isSpecial

/-- The password rule with one line feed allowed after the password. -/
def acceptedPassword (T : UnicodeTables) (cs : List Char) : Bool :=
  strongPassword T cs || (cs.getLast? == some '\n' && strongPassword T cs.dropLast)

/-! ## Facts about the embedding -/

/-- The matcher never reports an error. -/
theorem MatchString_err (T : UnicodeTables) (re : Regexp) (s : String) :
    (re.MatchString T s).2 = none := rfl

/-- An edit check lets the handler go on exactly for an empty field or a matching one. -/
theorem editCheck_eq_none (rt : Runtime) (exp : Regexp) (field msg : String) :
    editCheck rt exp field msg = none ↔
      (field ≠ "" → (exp.MatchString rt.unicode field).1 = true) := by
  unfold editCheck
  by_cases hf : field = ""
  · simp [hf]
  · cases hm : (exp.MatchString rt.unicode field).1 <;>
      simp [hf, Regexp.MatchString] <;> simp_all [Regexp.MatchString]

/-- An edit check on a non-empty field that does not match gives the field's message. -/
theorem editCheck_of_mismatch (rt : Runtime) (exp : Regexp) (field msg : String)
    (hne : field ≠ "") (hm : (exp.MatchString rt.unicode field).1 = false) :
    editCheck rt exp field msg = some [.ctxString StatusOK msg] := by
  simp_all [editCheck, Regexp.MatchString]

/-- An edit check that stops the handler answers its own message. -/
theorem editCheck_eq_some (rt : Runtime) (exp : Regexp) (field msg : String) (t : List Event)
    (h : editCheck rt exp field msg = some t) : t = [.ctxString StatusOK msg] := by
  unfold editCheck at h
  by_cases hf : field = ""
  · simp [hf] at h
  · cases hm : (exp.MatchString rt.unicode field).1 <;>
      simp_all [Regexp.MatchString]

/-- The user that `Edit` hands to the service. -/
theorem Edit_of_checks (rt : Runtime) (u : UserHandler) (req : EditReq) (sess : Session)
    (h1 : editCheck rt u.birthdayExp req.Birthday birthdayFormatMsg = none)
    (h2 : editCheck rt u.nicknameExp req.NickName nicknameFormatMsg = none)
    (h3 : editCheck rt u.introductionExp req.Introduction introductionFormatMsg = none)
    (h4 : editCheck rt u.locationExp req.Location locationFormatMsg = none) :
    u.Edit rt (some req) sess =
      match sess "userId" with
      | .int64 id =>
        if u.svc.Edit ⟨id, "", "", req.NickName, req.Birthday, req.Introduction,
            req.Location, ""⟩ ≠ none then
          .ret [.svcEdit ⟨id, "", "", req.NickName, req.Birthday, req.Introduction,
            req.Location, ""⟩, .ctxString StatusOK "编辑失败"]
        else
          .ret [.svcEdit ⟨id, "", "", req.NickName, req.Birthday, req.Introduction,
            req.Location, ""⟩, .ctxString StatusOK "编辑成功"]
      | _ => .panic [] := by
  simp only [UserHandler.Edit, h1, h2, h3, h4]

/-- When a check of `Edit` stops the handler, the trace is one validation message. -/
theorem Edit_stopped (rt : Runtime) (u : UserHandler) (req : EditReq) (sess : Session)
    (h : ¬ (editCheck rt u.birthdayExp req.Birthday birthdayFormatMsg = none
      ∧ editCheck rt u.nicknameExp req.NickName nicknameFormatMsg = none
      ∧ editCheck rt u.introductionExp req.Introduction introductionFormatMsg = none
      ∧ editCheck rt u.locationExp req.Location locationFormatMsg = none)) :
    ∃ msg, u.Edit rt (some req) sess = .ret [.ctxString StatusOK msg] := by
  unfold UserHandler.Edit
  cases h1 : editCheck rt u.birthdayExp req.Birthday birthdayFormatMsg with
  | some t => exact ⟨birthdayFormatMsg, by simp only [h1]; rw [editCheck_eq_some _ _ _ _ _ h1]⟩
  | none =>
    cases h2 : editCheck rt u.nicknameExp req.NickName nicknameFormatMsg with
    | some t => exact ⟨nicknameFormatMsg, by simp only [h1, h2]; rw [editCheck_eq_some _ _ _ _ _ h2]⟩
    | none =>
      cases h3 : editCheck rt u.introductionExp req.Introduction introductionFormatMsg with
      | some t => exact ⟨introductionFormatMsg, by simp only [h1, h2, h3]; rw [editCheck_eq_some _ _ _ _ _ h3]⟩
      | none =>
        cases h4 : editCheck rt u.locationExp req.Location locationFormatMsg with
        | some t => exact ⟨locationFormatMsg, by simp only [h1, h2, h3, h4]; rw [editCheck_eq_some _ _ _ _ _ h4]⟩
        | none => exact absurd ⟨h1, h2, h3, h4⟩ h

/-- `UserService.Signup` writes no response body. -/
theorem Signup_writes_no_body (rt : Runtime) (svc : UserService) (usr : domain.User) :
    (svc.Signup rt usr).2.filter Event.isBody = [] := by
  simp only [UserService.Signup, UserRepository.Create]
  split_ifs <;> simp [Event.isBody]

/-- After a successful bind, `SignUp`, `Login` and `LoginJWT` write exactly one body on
every path, and so does `Edit` when the session holds an int64 `userId`. -/
theorem one_body_outside_Profile (rt : Runtime) (u : UserHandler) :
    (∀ req, (u.SignUp rt (some req)).bodies.length = 1)
    ∧ (∀ req, (u.Login (some req)).bodies.length = 1)
    ∧ (∀ req userAgent, (u.LoginJWT rt (some req) userAgent).bodies.length = 1)
    ∧ (∀ req (sess : Session) (id : Int), sess "userId" = .int64 id →
        (u.Edit rt (some req) sess).bodies.length = 1) := by
  refine ⟨?_, ?_, ?_, ?_⟩
  · intro req
    simp only [UserHandler.SignUp]
    split_ifs <;>
      simp [Outcome.bodies, Outcome.ret, Event.isBody, List.filter_cons,
        Signup_writes_no_body]
  · intro req
    simp only [UserHandler.Login]
    split_ifs <;> simp [Outcome.bodies, Outcome.ret, Event.isBody]
  · intro req userAgent
    simp only [UserHandler.LoginJWT]
    split_ifs <;> simp [Outcome.bodies, Outcome.ret, Event.isBody]
  · intro req sess id hs
    by_cases hc : editCheck rt u.birthdayExp req.Birthday birthdayFormatMsg = none
        ∧ editCheck rt u.nicknameExp req.NickName nicknameFormatMsg = none
        ∧ editCheck rt u.introductionExp req.Introduction introductionFormatMsg = none
        ∧ editCheck rt u.locationExp req.Location locationFormatMsg = none
    · rw [Edit_of_checks rt u req sess hc.1 hc.2.1 hc.2.2.1 hc.2.2.2, hs]
      simp only
      split_ifs <;> simp [Outcome.bodies, Outcome.ret, Event.isBody]
    · obtain ⟨msg, hm⟩ := Edit_stopped rt u req sess hc
      rw [hm]
      simp [Outcome.bodies, Outcome.ret, Event.isBody]

namespace regexp2

/-! ## The matcher on loops over one rune -/

/-- What one step over a rune class gives. -/
theorem mem_stepChar (p : Char → Bool) (pos : Nat) (rest : List Char) (d : Cursor) :
    d ∈ stepChar p ⟨pos, rest⟩ ↔
      ∃ x xs, rest = x :: xs ∧ p x = true ∧ d = ⟨pos + 1, xs⟩ := by
  cases rest with
  | nil => simp [stepChar]
  | cons x xs =>
    by_cases hp : p x = true
    · simp only [stepChar, hp, if_true, List.mem_singleton]
      constructor
      · rintro rfl
        exact ⟨x, xs, rfl, hp, rfl⟩
      · rintro ⟨y, ys, hy, -, h⟩
        cases hy
        exact h
    · simp [stepChar, hp]

/-- Fuel above the number of runes left is never used up: any two such amounts give the
same cursors, whatever the loop body and its bounds. -/
theorem loopRun_fuel (step : Cursor → List Cursor) (min : Nat) (max : Option Nat) :
    ∀ (fuel other n : Nat) (c : Cursor), c.rest.length < fuel → c.rest.length < other →
      loopRun step min max fuel n c = loopRun step min max other n c := by
  intro fuel
  induction fuel with
  | zero => intro other n c h; omega
  | succ f ih =>
    intro other n c h h2
    obtain ⟨g, rfl⟩ : ∃ g, other = g + 1 := ⟨other - 1, by omega⟩
    simp only [loopRun]
    congr 1
    split_ifs
    · apply List.flatMap_congr
      intro d hd
      have hlt : d.rest.length < c.rest.length := by
        simpa using (List.mem_filter.1 hd).2
      exact ih g (n + 1) d (by omega) (by omega)
    · rfl

/-- An unbounded loop over a rune class reaches exactly the cursors behind a prefix of
runes of the class that is long enough; fuel above the number of runes left suffices. -/
theorem mem_loopRun_stepChar (p : Char → Bool) (min : Nat) (rest : List Char) :
    ∀ (fuel n pos : Nat) (d : Cursor), rest.length < fuel →
      (d ∈ loopRun (stepChar p) min none fuel n ⟨pos, rest⟩ ↔
        ∃ k, k ≤ rest.length ∧ min ≤ n + k ∧ (∀ y ∈ rest.take k, p y = true)
          ∧ d = ⟨pos + k, rest.drop k⟩) := by
  induction rest with
  | nil =>
    intro fuel n pos d hf
    obtain ⟨f, rfl⟩ : ∃ f, fuel = f + 1 := ⟨fuel - 1, by simp at hf; omega⟩
    simp only [loopRun, stepChar, underMax, List.filter_nil, List.flatMap_nil, if_true,
      List.nil_append, List.length_nil, List.take_nil, List.drop_nil]
    constructor
    · intro h
      split_ifs at h with hm
      · exact ⟨0, le_refl 0, by omega, by simp, by simpa using h⟩
      · simp at h
    · rintro ⟨k, hk, h1, -, h2⟩
      obtain rfl : k = 0 := by omega
      simp only [Nat.add_zero] at h1 h2
      simp [h1, h2]
  | cons x xs ih =>
    intro fuel n pos d hf
    obtain ⟨f, rfl⟩ : ∃ f, fuel = f + 1 := ⟨fuel - 1, by simp at hf; omega⟩
    have hf' : xs.length < f := by simp at hf; omega
    have hunfold : loopRun (stepChar p) min none (f + 1) n ⟨pos, x :: xs⟩
        = (if p x = true then loopRun (stepChar p) min none f (n + 1) ⟨pos + 1, xs⟩ else [])
          ++ (if min ≤ n then [⟨pos, x :: xs⟩] else []) := by
      by_cases hp : p x = true <;> simp [loopRun, stepChar, underMax, hp]
    rw [hunfold, List.mem_append]
    constructor
    · rintro (h | h)
      · split_ifs at h with hp
        · obtain ⟨k, hk, h1, h2, h3⟩ := (ih f (n + 1) (pos + 1) d hf').1 h
          refine ⟨k + 1, by simp; omega, by omega, ?_, ?_⟩
          · intro y hy
            simp only [List.take_succ_cons, List.mem_cons] at hy
            rcases hy with rfl | hy
            · exact hp
            · exact h2 y hy
          · rw [h3]; simp; omega
        · simp at h
      · split_ifs at h with hm
        · exact ⟨0, by simp, by omega, by simp, by simpa using h⟩
        · simp at h
    · rintro ⟨k, hk, h1, h2, h3⟩
      cases k with
      | zero =>
        right
        simp only [Nat.add_zero] at h1 h3
        simp [h1, h3]
      | succ k =>
        left
        have hp : p x = true := h2 x (by simp)
        rw [if_pos hp]
        refine (ih f (n + 1) (pos + 1) d hf').2 ⟨k, by simp at hk; omega, by omega, ?_, ?_⟩
        · intro y hy
          exact h2 y (by simp [hy])
        · rw [h3]; simp; omega

/-- A pattern that starts with `^` matches somewhere exactly when it matches at the start. -/
theorem scan_Beginning (T : UnicodeTables) (r : Node) (s : List Char) :
    scan T (.Concatenate .Beginning r) 0 s = !(run T r ⟨0, s⟩).isEmpty := by
  have hrun : ∀ pos (l : List Char), run T (.Concatenate .Beginning r) ⟨pos + 1, l⟩ = [] := by
    intro pos l
    simp [run]
  have hscan : ∀ (l : List Char) pos, scan T (.Concatenate .Beginning r) (pos + 1) l = false := by
    intro l
    induction l with
    | nil => intro pos; simp [scan, hrun]
    | cons x xs ih => intro pos; simp [scan, hrun, ih]
  have h0 : ∀ l : List Char, run T (.Concatenate .Beginning r) ⟨0, l⟩ = run T r ⟨0, l⟩ := by
    intro l
    simp [run]
  cases s with
  | nil => simp [scan, h0]
  | cons x xs => simp [scan, h0, hscan]

/-- The lookahead `(?=.*[set])`: some rune of the set has no line feed before it. -/
theorem lookahead_nonempty (T : UnicodeTables) (items : List SetItem) (pos : Nat)
    (rest : List Char) :
    (run T (.Concatenate (.Loop 0 none (.Notone '\n')) (.Set items)) ⟨pos, rest⟩).isEmpty = false ↔
      ∃ pre x post, rest = pre ++ x :: post ∧ (∀ y ∈ pre, y ≠ '\n')
        ∧ CharIn T items x = true := by
  have hstep : run T (.Notone '\n') = stepChar (fun y => y != '\n') := by
    funext c; simp [run]
  have hset : run T (.Set items) = stepChar (CharIn T items) := by
    funext c; simp [run]
  simp only [run, hstep, hset]
  rw [← Bool.not_eq_true, List.isEmpty_iff]
  constructor
  · intro h
    obtain ⟨d', hd'⟩ := List.exists_mem_of_ne_nil _ h
    obtain ⟨d, hd, hdd'⟩ := List.mem_flatMap.1 hd'
    obtain ⟨k, hk, -, h2, rfl⟩ :=
      (mem_loopRun_stepChar _ 0 rest _ 0 pos d (Nat.lt_succ_self _)).1 hd
    obtain ⟨x, xs, hx, hp, -⟩ := (mem_stepChar _ _ _ _).1 hdd'
    refine ⟨rest.take k, x, xs, ?_, ?_, hp⟩
    · rw [← hx, List.take_append_drop]
    · intro y hy
      simpa using h2 y hy
  · rintro ⟨pre, x, post, rfl, hpre, hp⟩
    apply List.ne_nil_of_mem (a := ⟨pos + pre.length + 1, post⟩)
    refine List.mem_flatMap.2 ⟨⟨pos + pre.length, x :: post⟩, ?_, ?_⟩
    · refine (mem_loopRun_stepChar _ 0 _ _ 0 pos _ (Nat.lt_succ_self _)).2
        ⟨pre.length, by simp, by omega, ?_, by simp⟩
      intro y hy
      simp only [List.take_left' rfl] at hy
      simpa using hpre y hy
    · exact (mem_stepChar _ _ _ _).2 ⟨x, post, rfl, hp, rfl⟩

/-- The tail `[set]{min,}$`: a prefix of at least `min` runes of the set, followed by
the end of the input or by one last line feed. -/
theorem loop_EndZ_nonempty (T : UnicodeTables) (items : List SetItem) (min pos : Nat)
    (rest : List Char) :
    (run T (.Concatenate (.Loop min none (.Set items)) .EndZ) ⟨pos, rest⟩).isEmpty = false ↔
      ∃ k, k ≤ rest.length ∧ min ≤ k ∧ (∀ y ∈ rest.take k, CharIn T items y = true)
        ∧ (rest.drop k = [] ∨ rest.drop k = ['\n']) := by
  have hset : run T (.Set items) = stepChar (CharIn T items) := by
    funext c; simp [run]
  simp only [run, hset]
  rw [← Bool.not_eq_true, List.isEmpty_iff]
  constructor
  · intro h
    obtain ⟨d', hd'⟩ := List.exists_mem_of_ne_nil _ h
    obtain ⟨d, hd, hdd'⟩ := List.mem_flatMap.1 hd'
    obtain ⟨k, hk, h1, h2, rfl⟩ :=
      (mem_loopRun_stepChar _ min rest _ 0 pos d (Nat.lt_succ_self _)).1 hd
    refine ⟨k, hk, by omega, h2, ?_⟩
    by_contra hc
    dsimp only at hdd'
    rw [if_neg hc] at hdd'
    simp at hdd'
  · rintro ⟨k, hk, h1, h2, h3⟩
    apply List.ne_nil_of_mem (a := ⟨pos + k, rest.drop k⟩)
    refine List.mem_flatMap.2 ⟨⟨pos + k, rest.drop k⟩, ?_, ?_⟩
    · exact (mem_loopRun_stepChar _ min _ _ 0 pos _ (Nat.lt_succ_self _)).2
        ⟨k, hk, by omega, h2, rfl⟩
    · dsimp only
      rw [if_pos h3]
      simp

end regexp2

/-! ## The password pattern -/

/-- The set `[A-Za-z]`. -/
theorem CharIn_letters (T : UnicodeTables) (c : Char) :
    CharIn T [.range 'A' 'Z', .range 'a' 'z'] c = isAsciiLetter c := by
  simp [CharIn, SetItem.CharIn, isAsciiLetter]

/-- The set `[$@$!%*#?&]`. -/
theorem CharIn_passwordSpecials (T : UnicodeTables) (c : Char) :
    CharIn T passwordSpecials c = isSpecial c := by
  simp only [CharIn, passwordSpecials, SetItem.CharIn, isSpecial, List.any_cons, List.any_nil,
    List.contains_cons, List.contains_nil, Bool.or_false]
  generalize (c == '$') = a
  generalize (c == '@') = b
  cases a <;> cases b <;> simp

/-- The set `[A-Za-z\d$@$!%*#?&]`. -/
theorem CharIn_passwordChars (T : UnicodeTables) (c : Char) :
    CharIn T passwordChars c = (isAsciiLetter c || DigitClass T c || isSpecial c) := by
  have h := CharIn_passwordSpecials T c
  have h2 := CharIn_letters T c
  simp only [CharIn, passwordChars, List.cons_append, List.nil_append, List.any_cons,
    SetItem.CharIn] at h h2 ⊢
  rw [h, ← h2]
  simp [Bool.or_assoc]

/-- A line feed is no password character. -/
theorem passwordChar_ne_newline (T : UnicodeTables) (c : Char)
    (h : (isAsciiLetter c || DigitClass T c || isSpecial c) = true) : c ≠ '\n' := by
  rintro rfl
  simp [isAsciiLetter, DigitClass, isSpecial] at h

/-- `strongPassword`, spelled out. -/
theorem strongPassword_iff (T : UnicodeTables) (cs : List Char) :
    strongPassword T cs = true ↔
      8 ≤ cs.length
      ∧ (∀ c ∈ cs, (isAsciiLetter c || DigitClass T c || isSpecial c) = true)
      ∧ (∃ c ∈ cs, isAsciiLetter c = true) ∧ (∃ c ∈ cs, DigitClass T c = true)
      ∧ (∃ c ∈ cs, isSpecial c = true) := by
  simp only [strongPassword, Bool.and_eq_true, decide_eq_true_eq, List.all_eq_true,
    List.any_eq_true, and_assoc]

/-- `acceptedPassword`, spelled out. -/
theorem acceptedPassword_iff (T : UnicodeTables) (cs : List Char) :
    acceptedPassword T cs = true ↔
      ∃ body tail, cs = body ++ tail ∧ (tail = [] ∨ tail = ['\n'])
        ∧ strongPassword T body = true := by
  simp only [acceptedPassword, Bool.or_eq_true, Bool.and_eq_true, beq_iff_eq]
  constructor
  · rintro (h | ⟨hl, h⟩)
    · exact ⟨cs, [], by simp, Or.inl rfl, h⟩
    · exact ⟨cs.dropLast, ['\n'], (List.dropLast_append_getLast? _ (by simp [hl])).symm,
        Or.inr rfl, h⟩
  · rintro ⟨body, tail, rfl, rfl | rfl, h⟩
    · left; simpa using h
    · right
      refine ⟨by simp, ?_⟩
      rw [List.dropLast_concat]
      exact h

/-- In an input made of runes other than the line feed, with at most one line feed after
them, the lookahead `(?=.*[set])` finds its rune among the former. -/
theorem lookahead_in_body (X : Char → Bool) (hX : X '\n' = false) (body tail : List Char)
    (hbody : ∀ y ∈ body, y ≠ '\n') (htail : tail = [] ∨ tail = ['\n']) :
    (∃ pre x post, body ++ tail = pre ++ x :: post ∧ (∀ y ∈ pre, y ≠ '\n') ∧ X x = true)
      ↔ ∃ x ∈ body, X x = true := by
  constructor
  · rintro ⟨pre, x, post, h, -, hx⟩
    have hmem : x ∈ body ++ tail := by rw [h]; simp
    rcases List.mem_append.1 hmem with hb | ht
    · exact ⟨x, hb, hx⟩
    · rcases htail with rfl | rfl
      · simp at ht
      · simp only [List.mem_singleton] at ht
        rw [ht, hX] at hx
        exact absurd hx (by simp)
  · rintro ⟨x, hx, hXx⟩
    obtain ⟨pre, post, rfl⟩ := List.append_of_mem hx
    exact ⟨pre, x, post ++ tail, by simp, fun y hy => hbody y (by simp [hy]), hXx⟩

/-- A lookahead in front of a pattern. -/
theorem run_Require_isEmpty (T : UnicodeTables) (r q : Node) (c : Cursor) :
    (run T (.Concatenate (.Require r) q) c).isEmpty
      = ((run T r c).isEmpty || (run T q c).isEmpty) := by
  cases h : (run T r c).isEmpty <;> simp [run, h]

/-- What the password pattern accepts: `strongPassword`, up to one line feed at the end. -/
theorem passwordRegex_scan (T : UnicodeTables) (cs : List Char) :
    scan T passwordRegexTree 0 cs = acceptedPassword T cs := by
  rw [Bool.eq_iff_iff, acceptedPassword_iff]
  have htree : passwordRegexTree =
      .Concatenate .Beginning
        (.Concatenate (.Require (.Concatenate (.Loop 0 none (.Notone '\n'))
            (.Set [.range 'A' 'Z', .range 'a' 'z'])))
          (.Concatenate (.Require (.Concatenate (.Loop 0 none (.Notone '\n')) (.Set [.digit])))
            (.Concatenate (.Require (.Concatenate (.Loop 0 none (.Notone '\n'))
                (.Set passwordSpecials)))
              (.Concatenate (.Loop 8 none (.Set passwordChars)) .EndZ)))) := rfl
  have hdigit : ∀ c, CharIn T [.digit] c = DigitClass T c := by
    intro c; simp [CharIn, SetItem.CharIn]
  rw [htree, scan_Beginning, run_Require_isEmpty, run_Require_isEmpty, run_Require_isEmpty]
  simp only [Bool.not_eq_true', Bool.or_eq_false_iff, lookahead_nonempty, loop_EndZ_nonempty,
    CharIn_letters, CharIn_passwordSpecials, CharIn_passwordChars, hdigit]
  constructor
  · rintro ⟨h1, h2, h3, k, hk, h8, hall, hend⟩
    have hbody : ∀ y ∈ cs.take k, y ≠ '\n' :=
      fun y hy => passwordChar_ne_newline T y (hall y hy)
    have hcs : cs.take k ++ cs.drop k = cs := List.take_append_drop k cs
    rw [← hcs] at h1 h2 h3
    refine ⟨cs.take k, cs.drop k, hcs.symm, hend, (strongPassword_iff T _).2
      ⟨by simp; omega, hall, ?_, ?_, ?_⟩⟩
    · exact (lookahead_in_body _ (by decide) _ _ hbody hend).1 h1
    · exact (lookahead_in_body _ (by simp [DigitClass]) _ _ hbody hend).1 h2
    · exact (lookahead_in_body _ (by decide) _ _ hbody hend).1 h3
  · rintro ⟨body, tail, rfl, htail, hs⟩
    obtain ⟨h8, hall, hl, hd, hsp⟩ := (strongPassword_iff T _).1 hs
    have hbody : ∀ y ∈ body, y ≠ '\n' := fun y hy => passwordChar_ne_newline T y (hall y hy)
    refine ⟨?_, ?_, ?_, body.length, by simp, h8, by simpa using hall, by simpa using htail⟩
    · exact (lookahead_in_body _ (by decide) _ _ hbody htail).2 hl
    · exact (lookahead_in_body _ (by simp [DigitClass]) _ _ hbody htail).2 hd
    · exact (lookahead_in_body _ (by decide) _ _ hbody htail).2 hsp

/-! # The claims -/

/-! ## C1 -/

/-- C1: a signup request whose confirmation differs from the password returns after exactly
one answer, the email-format message or the mismatch message, without any call of the
service, whatever the password; with an email that matches the email pattern the answer is
the mismatch message. -/
theorem C1_mismatch_never_reaches_service (rt : Runtime) (u : UserHandler) (req : SignUpReq)
    (h : req.ConfirmPassword ≠ req.Password) :
    (u.SignUp rt (some req)).panicked = false
    ∧ (∀ e ∈ (u.SignUp rt (some req)).trace, e.isSvcCall = false)
    ∧ ((u.SignUp rt (some req)).trace = [.ctxString StatusOK "你的邮箱格式不对"]
        ∨ (u.SignUp rt (some req)).trace = [.ctxString StatusOK "两次输入的密码不一致"])
    ∧ ((u.emailExp.MatchString rt.unicode req.Email).1 = true →
        (u.SignUp rt (some req)).trace = [.ctxString StatusOK "两次输入的密码不一致"]) := by
  cases hm : (u.emailExp.MatchString rt.unicode req.Email).1 <;>
    simp_all [UserHandler.SignUp, Regexp.MatchString, Outcome.ret, Event.isSvcCall]

/-- C1 at a request with a well-formed email and a password that satisfies the password
pattern. -/
theorem C1_mismatch_never_reaches_service_witness :
    ("abcdef1?" : String) ≠ "abcdef1!"
    ∧ ((NewUserHandler sampleService).passwordExp.MatchString asciiTables "abcdef1!").1 = true
    ∧ ((NewUserHandler sampleService).SignUp sampleRuntime
        (some ⟨"a@b.cc", "abcdef1?", "abcdef1!"⟩)).trace
        = [.ctxString StatusOK "两次输入的密码不一致"] :=
  ⟨by decide, by decide,
   (C1_mismatch_never_reaches_service sampleRuntime (NewUserHandler sampleService)
      ⟨"a@b.cc", "abcdef1?", "abcdef1!"⟩ (by decide)).2.2.2 (by decide)⟩

/-! ## C2 -/

/-- C2 fails for a password that bcrypt refuses: `sampleDAO` answers the insert of
`a@b.cc` with the duplicate-email error, the request passes validation, and yet `Signup`
returns the bcrypt error and the handler answers "系统异常". -/
theorem C2_counterexample :
    (∀ password, sampleDAO.Insert { Email := "a@b.cc", Password := password }
        = some .ErrUserDuplicateEmail)
    ∧ (sampleService.Signup sampleRuntime { Email := "a@b.cc", Password := longPassword }).1
        ≠ some .ErrUserDuplicateEmail
    ∧ ((NewUserHandler sampleService).SignUp sampleRuntime
        (some ⟨"a@b.cc", longPassword, longPassword⟩)).trace
        = [.svcSignUp { Email := "a@b.cc", Password := longPassword },
           .ctxString StatusOK "系统异常"] := by
  refine ⟨fun _ => rfl, by decide, ?_⟩
  set_option maxRecDepth 100000 in decide

/-- C2, amended: when the insert of every record with the user's email is answered with the
duplicate-email error and bcrypt succeeds on the password, `UserService.Signup` returns
`ErrUserDuplicateEmail` and `SignUp`, validation passed, answers "邮箱冲突" as its only
answer; whether bcrypt succeeds or not, `SignUp` does not answer "注册成功". -/
theorem C2_duplicate_email (rt : Runtime) (u : UserHandler) (req : SignUpReq)
    (hemail : (u.emailExp.MatchString rt.unicode req.Email).1 = true)
    (hconfirm : req.ConfirmPassword = req.Password)
    (hpassword : (u.passwordExp.MatchString rt.unicode req.Password).1 = true)
    (hdup : ∀ stored : dao.User, stored.Email = req.Email →
      u.svc.repo.dao.Insert stored = some .ErrUserDuplicateEmail) :
    (∀ hash, rt.GenerateFromPassword req.Password DefaultCost = (hash, none) →
      (u.svc.Signup rt { Email := req.Email, Password := req.Password }).1
          = some .ErrUserDuplicateEmail
      ∧ (u.SignUp rt (some req)).bodies = [.ctxString StatusOK "邮箱冲突"])
    ∧ (∀ code, Event.ctxString code "注册成功" ∉ (u.SignUp rt (some req)).trace) := by
  have hsvc : ∀ hash, rt.GenerateFromPassword req.Password DefaultCost = (hash, none) →
      u.svc.Signup rt { Email := req.Email, Password := req.Password }
        = (some .ErrUserDuplicateEmail, [.daoInsert ⟨0, req.Email, hash, "", "", "", "", ""⟩]) := by
    intro hash h
    simp [UserService.Signup, UserRepository.Create, h, hdup]
  have hbody : (u.SignUp rt (some req)) =
      (if (u.svc.Signup rt { Email := req.Email, Password := req.Password }).1
          = some .ErrUserDuplicateEmail then
        .ret (.svcSignUp { Email := req.Email, Password := req.Password }
          :: (u.svc.Signup rt { Email := req.Email, Password := req.Password }).2
          ++ [.ctxString StatusOK "邮箱冲突"])
      else if (u.svc.Signup rt { Email := req.Email, Password := req.Password }).1 ≠ none then
        .ret (.svcSignUp { Email := req.Email, Password := req.Password }
          :: (u.svc.Signup rt { Email := req.Email, Password := req.Password }).2
          ++ [.ctxString StatusOK "系统异常"])
      else
        .ret (.svcSignUp { Email := req.Email, Password := req.Password }
          :: (u.svc.Signup rt { Email := req.Email, Password := req.Password }).2
          ++ [.ctxString StatusOK "注册成功"])) := by
    simp_all [UserHandler.SignUp, Regexp.MatchString]
  constructor
  · intro hash h
    rw [hbody, hsvc hash h]
    simp [Outcome.bodies, Outcome.ret, Event.isBody]
  · intro code
    rw [hbody]
    cases hg : rt.GenerateFromPassword req.Password DefaultCost with
    | mk hash err =>
      cases err with
      | none =>
        rw [hsvc hash hg]
        simp [Outcome.ret]
      | some e =>
        have : u.svc.Signup rt { Email := req.Email, Password := req.Password } = (some e, []) := by
          simp [UserService.Signup, hg]
        rw [this]
        by_cases he : e = .ErrUserDuplicateEmail <;> simp [he, Outcome.ret]

/-- C2, amended, at the signup of `a@b.cc`, which `sampleDAO` holds, with the password
`abcdef1!`. -/
theorem C2_duplicate_email_witness :
    ((NewUserHandler sampleService).emailExp.MatchString asciiTables "a@b.cc").1 = true
    ∧ ((NewUserHandler sampleService).passwordExp.MatchString asciiTables "abcdef1!").1 = true
    ∧ (∀ stored : dao.User, stored.Email = "a@b.cc" →
        sampleDAO.Insert stored = some .ErrUserDuplicateEmail)
    ∧ ((NewUserHandler sampleService).SignUp sampleRuntime
        (some ⟨"a@b.cc", "abcdef1!", "abcdef1!"⟩)).bodies = [.ctxString StatusOK "邮箱冲突"] :=
  have hdup : ∀ stored : dao.User, stored.Email = "a@b.cc" →
      sampleDAO.Insert stored = some .ErrUserDuplicateEmail :=
    fun stored h => by simp [sampleDAO, storedUser, h]
  ⟨by decide, by decide, hdup,
   ((C2_duplicate_email sampleRuntime (NewUserHandler sampleService)
      ⟨"a@b.cc", "abcdef1!", "abcdef1!"⟩ (by decide) rfl (by decide) hdup).1
      "$2a$10$N9qo8uLOickgx2ZMRZoMyeIjZAgcfl7p92ldGxad68LJZdL17lhWy" (by decide)).2⟩

/-! ## C3 -/

/-- C3: with a session that holds an int64 `userId`, `Edit` calls the service, as the first
effect of the run and with the submitted fields, exactly when every non-empty field among
birthday, nickname, introduction and location matches its own pattern, and the run is then
the service call followed by the service's answer "编辑失败" or "编辑成功", without a
validation message; otherwise the run is one answer and nothing else, the validation
message of the first field, in the order birthday, nickname, introduction, location, that
is non-empty and does not match.  Whatever the four patterns are, a request with the four
fields empty reaches the service. -/
theorem C3_edit_checks_nonempty_fields_only (rt : Runtime) (u : UserHandler) (req : EditReq)
    (sess : Session) (id : Int) (hs : sess "userId" = .int64 id) :
    ((u.Edit rt (some req) sess).trace.head? =
        some (.svcEdit ⟨id, "", "", req.NickName, req.Birthday, req.Introduction,
          req.Location, ""⟩)
      ↔ (req.Birthday ≠ "" → (u.birthdayExp.MatchString rt.unicode req.Birthday).1 = true)
        ∧ (req.NickName ≠ "" → (u.nicknameExp.MatchString rt.unicode req.NickName).1 = true)
        ∧ (req.Introduction ≠ "" →
            (u.introductionExp.MatchString rt.unicode req.Introduction).1 = true)
        ∧ (req.Location ≠ "" → (u.locationExp.MatchString rt.unicode req.Location).1 = true))
    ∧ ((∃ e ∈ (u.Edit rt (some req) sess).trace, e.isSvcCall = true)
      ↔ (u.Edit rt (some req) sess).trace.head? =
        some (.svcEdit ⟨id, "", "", req.NickName, req.Birthday, req.Introduction,
          req.Location, ""⟩))
    ∧ (req.Birthday = "" → req.NickName = "" → req.Introduction = "" → req.Location = "" →
        (u.Edit rt (some req) sess).trace.head? = some (.svcEdit ⟨id, "", "", "", "", "", "", ""⟩))
    ∧ ((req.Birthday ≠ "" → (u.birthdayExp.MatchString rt.unicode req.Birthday).1 = true) →
        (req.NickName ≠ "" → (u.nicknameExp.MatchString rt.unicode req.NickName).1 = true) →
        (req.Introduction ≠ "" →
          (u.introductionExp.MatchString rt.unicode req.Introduction).1 = true) →
        (req.Location ≠ "" → (u.locationExp.MatchString rt.unicode req.Location).1 = true) →
        u.Edit rt (some req) sess =
          .ret [.svcEdit ⟨id, "", "", req.NickName, req.Birthday, req.Introduction,
                  req.Location, ""⟩,
                .ctxString StatusOK
                  (if u.svc.Edit ⟨id, "", "", req.NickName, req.Birthday, req.Introduction,
                      req.Location, ""⟩ ≠ none then "编辑失败" else "编辑成功")])
    ∧ (req.Birthday ≠ "" → (u.birthdayExp.MatchString rt.unicode req.Birthday).1 = false →
        u.Edit rt (some req) sess
          = .ret [.ctxString StatusOK "生日格式不对,必须以19或者20开头,正确例子1999-1-28"])
    ∧ ((req.Birthday ≠ "" → (u.birthdayExp.MatchString rt.unicode req.Birthday).1 = true) →
        req.NickName ≠ "" → (u.nicknameExp.MatchString rt.unicode req.NickName).1 = false →
        u.Edit rt (some req) sess
          = .ret [.ctxString StatusOK "昵称格式不对,至少2个中文字符,并且不能超过10个中文字符"])
    ∧ ((req.Birthday ≠ "" → (u.birthdayExp.MatchString rt.unicode req.Birthday).1 = true) →
        (req.NickName ≠ "" → (u.nicknameExp.MatchString rt.unicode req.NickName).1 = true) →
        req.Introduction ≠ "" →
        (u.introductionExp.MatchString rt.unicode req.Introduction).1 = false →
        u.Edit rt (some req) sess
          = .ret [.ctxString StatusOK
              "个人简介格式不对,至少10个中文字符,并且不能超过300个中文字符"])
    ∧ ((req.Birthday ≠ "" → (u.birthdayExp.MatchString rt.unicode req.Birthday).1 = true) →
        (req.NickName ≠ "" → (u.nicknameExp.MatchString rt.unicode req.NickName).1 = true) →
        (req.Introduction ≠ "" →
          (u.introductionExp.MatchString rt.unicode req.Introduction).1 = true) →
        req.Location ≠ "" → (u.locationExp.MatchString rt.unicode req.Location).1 = false →
        u.Edit rt (some req) sess
          = .ret [.ctxString StatusOK "地址格式不对,至少3个中文字符,并且不能超过60个中文字符"]) := by
  have key : (u.Edit rt (some req) sess).trace.head? =
        some (.svcEdit ⟨id, "", "", req.NickName, req.Birthday, req.Introduction,
          req.Location, ""⟩)
      ↔ (editCheck rt u.birthdayExp req.Birthday birthdayFormatMsg = none
      ∧ editCheck rt u.nicknameExp req.NickName nicknameFormatMsg = none
      ∧ editCheck rt u.introductionExp req.Introduction introductionFormatMsg = none
      ∧ editCheck rt u.locationExp req.Location locationFormatMsg = none) := by
    constructor
    · intro h
      by_contra hc
      obtain ⟨msg, hm⟩ := Edit_stopped rt u req sess hc
      rw [hm] at h
      simp [Outcome.ret] at h
    · rintro ⟨h1, h2, h3, h4⟩
      rw [Edit_of_checks rt u req sess h1 h2 h3 h4, hs]
      by_cases he : u.svc.Edit ⟨id, "", "", req.NickName, req.Birthday, req.Introduction,
          req.Location, ""⟩ = none <;> simp [he, Outcome.ret]
  have svc : (∃ e ∈ (u.Edit rt (some req) sess).trace, e.isSvcCall = true)
      ↔ (u.Edit rt (some req) sess).trace.head? =
        some (.svcEdit ⟨id, "", "", req.NickName, req.Birthday, req.Introduction,
          req.Location, ""⟩) := by
    constructor
    · intro h
      rw [key]
      by_contra hc
      obtain ⟨msg, hm⟩ := Edit_stopped rt u req sess hc
      rw [hm] at h
      simp [Outcome.ret, Event.isSvcCall] at h
    · intro h
      cases ht : (u.Edit rt (some req) sess).trace with
      | nil => rw [ht] at h; simp at h
      | cons e t =>
        rw [ht] at h
        simp only [List.head?_cons, Option.some.injEq] at h
        exact ⟨e, by simp, by rw [h]; rfl⟩
  refine ⟨?_, svc, ?_, ?_, ?_, ?_, ?_, ?_⟩
  · rw [key, editCheck_eq_none, editCheck_eq_none, editCheck_eq_none, editCheck_eq_none]
  · intro hb hn hi hl
    have := key.2 (by simp [editCheck, hb, hn, hi, hl])
    rw [this, hb, hn, hi, hl]
  · intro h1 h2 h3 h4
    rw [Edit_of_checks rt u req sess ((editCheck_eq_none _ _ _ _).2 h1)
      ((editCheck_eq_none _ _ _ _).2 h2) ((editCheck_eq_none _ _ _ _).2 h3)
      ((editCheck_eq_none _ _ _ _).2 h4), hs]
    by_cases he : u.svc.Edit ⟨id, "", "", req.NickName, req.Birthday, req.Introduction,
        req.Location, ""⟩ = none <;> simp [he]
  · intro hne hm
    simp only [UserHandler.Edit, editCheck_of_mismatch rt _ _ _ hne hm]
    rfl
  · intro h1 hne hm
    simp only [UserHandler.Edit, (editCheck_eq_none _ _ _ _).2 h1,
      editCheck_of_mismatch rt _ _ _ hne hm]
    rfl
  · intro h1 h2 hne hm
    simp only [UserHandler.Edit, (editCheck_eq_none _ _ _ _).2 h1,
      (editCheck_eq_none _ _ _ _).2 h2, editCheck_of_mismatch rt _ _ _ hne hm]
    rfl
  · intro h1 h2 h3 hne hm
    simp only [UserHandler.Edit, (editCheck_eq_none _ _ _ _).2 h1,
      (editCheck_eq_none _ _ _ _).2 h2, (editCheck_eq_none _ _ _ _).2 h3,
      editCheck_of_mismatch rt _ _ _ hne hm]
    rfl

/-- C3 at a request with a well-formed birthday and location and the other fields empty,
and at a request whose nickname does not match. -/
theorem C3_edit_checks_nonempty_fields_only_witness :
    loggedIn "userId" = .int64 7
    ∧ ((NewUserHandler sampleService).Edit sampleRuntime
        (some ⟨"", "1999-01-28", "", "北京市", ""⟩) loggedIn).trace.head?
      = some (.svcEdit ⟨7, "", "", "", "1999-01-28", "", "北京市", ""⟩)
    ∧ (NewUserHandler sampleService).Edit sampleRuntime
        (some ⟨"t", "1999-01-28", "", "", ""⟩) loggedIn
      = .ret [.ctxString StatusOK "昵称格式不对,至少2个中文字符,并且不能超过10个中文字符"] :=
  ⟨by decide,
   (C3_edit_checks_nonempty_fields_only sampleRuntime (NewUserHandler sampleService)
      ⟨"", "1999-01-28", "", "北京市", ""⟩ loggedIn 7 (by decide)).1.2
      ⟨fun _ => by decide, fun h => absurd rfl h, fun h => absurd rfl h, fun _ => by decide⟩,
   (C3_edit_checks_nonempty_fields_only sampleRuntime (NewUserHandler sampleService)
      ⟨"t", "1999-01-28", "", "", ""⟩ loggedIn 7 (by decide)).2.2.2.2.2.1
      (fun _ => by decide) (by decide) (by decide)⟩

/-! ## C4 -/

/-- C4: in `Login` and `LoginJWT`, when the service reports invalid credentials the run is
the service call and the answer "用户名或密码不对", with neither a session entry nor a header;
when the service's `Login` returns without error, `Login` sets the session entry `userId`
to the returned user's id and `LoginJWT` sets the header `x-jwt-token` to the token signed
from the claims with this id and the request's user-agent; each handler sets login state
exactly when the service's `Login` returns without error, and sets no other login state. -/
theorem C4_login_state (rt : Runtime) (u : UserHandler) (req : LoginReq) (userAgent : String) :
    ((u.svc.Login req.Email req.Password).2 = some .ErrInvalidUserOrPassword →
      (u.Login (some req)).trace
          = [.svcLogin req.Email req.Password, .ctxString StatusOK "用户名或密码不对"]
      ∧ (u.LoginJWT rt (some req) userAgent).trace
          = [.svcLogin req.Email req.Password, .ctxString StatusOK "用户名或密码不对"])
    ∧ ((u.svc.Login req.Email req.Password).2 = none →
      (u.Login (some req)).trace
          = [.svcLogin req.Email req.Password,
             .sessSet "userId" (.int64 (u.svc.Login req.Email req.Password).1.Id),
             .sessOptions ⟨true, true, 600⟩, .sessSave, .ctxString StatusOK "登录成功"]
      ∧ (u.LoginJWT rt (some req) userAgent).trace
          = [.svcLogin req.Email req.Password,
             .ctxHeader "x-jwt-token" (rt.signHS512 ⟨NewNumericDate (rt.Now + Minute),
               (u.svc.Login req.Email req.Password).1.Id, userAgent⟩ jwtKey),
             .ctxString StatusOK "登录成功"])
    ∧ ((∃ e ∈ (u.Login (some req)).trace, e.isLoginState = true)
        ↔ (u.svc.Login req.Email req.Password).2 = none)
    ∧ ((∃ e ∈ (u.LoginJWT rt (some req) userAgent).trace, e.isLoginState = true)
        ↔ (u.svc.Login req.Email req.Password).2 = none)
    ∧ (∀ e ∈ (u.Login (some req)).trace, e.isLoginState = true →
        e = .sessSet "userId" (.int64 (u.svc.Login req.Email req.Password).1.Id))
    ∧ (∀ e ∈ (u.LoginJWT rt (some req) userAgent).trace, e.isLoginState = true →
        e = .ctxHeader "x-jwt-token" (rt.signHS512 ⟨NewNumericDate (rt.Now + Minute),
              (u.svc.Login req.Email req.Password).1.Id, userAgent⟩ jwtKey)) := by
  cases hl : u.svc.Login req.Email req.Password with
  | mk user err =>
    cases err with
    | none =>
      simp [UserHandler.Login, UserHandler.LoginJWT, SignedString, hl, Outcome.ret,
        Event.isLoginState]
    | some e =>
      by_cases he : e = .ErrInvalidUserOrPassword <;>
        simp [UserHandler.Login, UserHandler.LoginJWT, SignedString, hl, he, Outcome.ret,
          Event.isLoginState]

/-- C4 at `sampleService`: a wrong password, then the right one. -/
theorem C4_login_state_witness :
    (sampleService.Login "a@b.cc" "abcdef1?").2 = some .ErrInvalidUserOrPassword
    ∧ (sampleService.Login "a@b.cc" "abcdef1!").2 = none
    ∧ ((NewUserHandler sampleService).LoginJWT sampleRuntime
        (some ⟨"a@b.cc", "abcdef1?"⟩) "curl/8.0").trace
        = [.svcLogin "a@b.cc" "abcdef1?", .ctxString StatusOK "用户名或密码不对"]
    ∧ ((NewUserHandler sampleService).Login (some ⟨"a@b.cc", "abcdef1!"⟩)).trace
        = [.svcLogin "a@b.cc" "abcdef1!", .sessSet "userId" (.int64 7),
           .sessOptions ⟨true, true, 600⟩, .sessSave, .ctxString StatusOK "登录成功"] :=
  ⟨by decide, by decide,
   ((C4_login_state sampleRuntime (NewUserHandler sampleService)
      ⟨"a@b.cc", "abcdef1?"⟩ "curl/8.0").1 (by decide)).2,
   ((C4_login_state sampleRuntime (NewUserHandler sampleService)
      ⟨"a@b.cc", "abcdef1!"⟩ "curl/8.0").2.1 (by decide)).1⟩

/-! ## C5 -/

/-- C5: when `bcrypt.GenerateFromPassword` succeeds with `hash`, `UserService.Signup` makes
exactly one DAO call, the insert of the record with `u.Email` and with `hash` as password
(so the plaintext is stored only if the hash is the plaintext itself), and returns the
insert's answer; when it fails, no DAO call is made and its error is returned. -/
theorem C5_signup_stores_the_hash (rt : Runtime) (svc : UserService) (u : domain.User) :
    (∀ hash, rt.GenerateFromPassword u.Password DefaultCost = (hash, none) →
      (svc.Signup rt u).2 = [.daoInsert ⟨0, u.Email, hash, "", "", "", "", ""⟩]
      ∧ (svc.Signup rt u).1 = svc.repo.dao.Insert ⟨0, u.Email, hash, "", "", "", "", ""⟩
      ∧ (hash ≠ u.Password →
          ∀ stored, Event.daoInsert stored ∈ (svc.Signup rt u).2 → stored.Password ≠ u.Password))
    ∧ (∀ hash e, rt.GenerateFromPassword u.Password DefaultCost = (hash, some e) →
      svc.Signup rt u = (some e, [])) := by
  constructor
  · intro hash h
    simp [UserService.Signup, UserRepository.Create, h]
  · intro hash e h
    simp [UserService.Signup, h]

/-- C5 at `sampleRuntime`: the password `abcdef1!` is stored as its hash, for a password of
73 bytes nothing is stored. -/
theorem C5_signup_stores_the_hash_witness :
    (sampleService.Signup sampleRuntime { Email := "n@b.cc", Password := "abcdef1!" }).2
      = [.daoInsert ⟨0, "n@b.cc",
          "$2a$10$N9qo8uLOickgx2ZMRZoMyeIjZAgcfl7p92ldGxad68LJZdL17lhWy", "", "", "", "", ""⟩]
    ∧ sampleService.Signup sampleRuntime { Email := "n@b.cc", Password := longPassword }
      = (some ErrPasswordTooLong, []) :=
  ⟨((C5_signup_stores_the_hash sampleRuntime sampleService
      { Email := "n@b.cc", Password := "abcdef1!" }).1 _ (by decide)).1,
   (C5_signup_stores_the_hash sampleRuntime sampleService
      { Email := "n@b.cc", Password := longPassword }).2 "" _ (by decide)⟩

/-! ## C6 -/

/-- C6 fails for a session without `userId`: whatever the patterns and collaborators,
`Edit` on a request with empty fields and `Profile` end in a panic without an answer, at the
type assertion `sess.Get("userId").(int64)`; so does `Profile` on every session whose
`userId` is not an int64.  `SignUp`, `Login`, `LoginJWT` and `Status` never panic, nor does
`Profile` on a session with an int64 `userId`. -/
theorem C6_missing_userId_panics (rt : Runtime) (u : UserHandler) :
    u.Edit rt (some ⟨"", "", "", "", ""⟩) emptySession = .panic []
    ∧ u.Profile emptySession = .panic []
    ∧ (∀ sess : Session, (∀ id, sess "userId" ≠ .int64 id) → u.Profile sess = .panic [])
    ∧ (∀ (sess : Session) (id : Int), sess "userId" = .int64 id →
        (u.Profile sess).panicked = false)
    ∧ (∀ bound, (u.SignUp rt bound).panicked = false)
    ∧ (∀ bound, (u.Login bound).panicked = false)
    ∧ (∀ bound userAgent, (u.LoginJWT rt bound userAgent).panicked = false)
    ∧ u.Status.panicked = false := by
  refine ⟨?_, ?_, ?_, ?_, ?_, ?_, ?_, ?_⟩
  · simp [UserHandler.Edit, editCheck, emptySession]
  · simp [UserHandler.Profile, emptySession]
  · intro sess h
    unfold UserHandler.Profile
    split
    · rename_i id hid
      exact absurd hid (h id)
    · rfl
  · intro sess id h
    simp [UserHandler.Profile, h, Outcome.ret]
  · intro bound
    cases bound with
    | none => simp [UserHandler.SignUp, Outcome.ret]
    | some req =>
      simp only [UserHandler.SignUp]
      split_ifs <;> simp [Outcome.ret]
  · intro bound
    cases bound with
    | none => simp [UserHandler.Login, Outcome.ret]
    | some req =>
      simp only [UserHandler.Login]
      split_ifs <;> simp [Outcome.ret]
  · intro bound userAgent
    cases bound with
    | none => simp [UserHandler.LoginJWT, Outcome.ret]
    | some req =>
      simp only [UserHandler.LoginJWT]
      split_ifs <;> simp [Outcome.ret]
  · simp [UserHandler.Status, Outcome.ret]

/-! ## C7 -/

/-- C7: for every user value and every DAO, `UserRepository.Edit` makes one DAO call, the
update of a record with empty `Email` and `Password` and with `Id`, `Birthday`, `NickName`,
`Location`, `Introduction`, `Avatar` copied unchanged, and answers what the DAO answers;
`UserRepository.FindById`, for a record the DAO finds, returns a user with empty `Password`
whose `Email`, `NickName`, `Birthday`, `Introduction`, `Location` and `Avatar` are the
stored ones, and on a DAO error returns the empty user with that error. -/
theorem C7_profile_paths_leave_credentials (r : UserRepository) (u : domain.User) (id : Int) :
    (r.Edit u).2 = [.daoUpdate ⟨u.Id, "", "", u.NickName, u.Birthday, u.Introduction,
                      u.Location, u.Avatar⟩]
    ∧ (r.Edit u).1 = r.dao.Update ⟨u.Id, "", "", u.NickName, u.Birthday, u.Introduction,
                      u.Location, u.Avatar⟩
    ∧ (r.FindById id).2 = [.daoFindById id]
    ∧ (∀ stored : dao.User, r.dao.FindById id = (stored, none) →
        (r.FindById id).1 = (⟨0, stored.Email, "", stored.NickName, stored.Birthday,
                      stored.Introduction, stored.Location, stored.Avatar⟩, none))
    ∧ (∀ (stored : dao.User) (e : Error), r.dao.FindById id = (stored, some e) →
        (r.FindById id).1 = (⟨0, "", "", "", "", "", "", ""⟩, some e)) := by
  refine ⟨by simp [UserRepository.Edit], by simp [UserRepository.Edit], ?_, ?_, ?_⟩
  · simp only [UserRepository.FindById]
    split_ifs <;> rfl
  · intro stored h
    simp [UserRepository.FindById, h]
  · intro stored e h
    simp [UserRepository.FindById, h]

/-- C7 at `sampleDAO`: editing a user that carries an email and a password, although the
DAO finds no record 8; reading user 7. -/
theorem C7_profile_paths_leave_credentials_witness :
    sampleDAO.FindById 8 = ({}, some .ErrUserNotFound)
    ∧ (UserRepository.Edit ⟨sampleDAO⟩
        ⟨8, "x@y.zz", "secret", "tom", "1999-01-28", "", "", "a.png"⟩).2
        = [.daoUpdate ⟨8, "", "", "tom", "1999-01-28", "", "", "a.png"⟩]
    ∧ sampleDAO.FindById 7 = (storedUser, none)
    ∧ (UserRepository.FindById ⟨sampleDAO⟩ 7).1
        = (⟨0, "a@b.cc", "", "tom", "1999-01-28", "", "", "a.png"⟩, none) :=
  ⟨by decide,
   (C7_profile_paths_leave_credentials ⟨sampleDAO⟩
      ⟨8, "x@y.zz", "secret", "tom", "1999-01-28", "", "", "a.png"⟩ 8).1,
   by decide,
   (C7_profile_paths_leave_credentials ⟨sampleDAO⟩
      ⟨8, "x@y.zz", "secret", "tom", "1999-01-28", "", "", "a.png"⟩ 7).2.2.2.1
      storedUser (by decide)⟩

/-! ## C8 -/

/-- C8 fails: whatever the session and the collaborators, `Edit` answers the birthday
given as the correct example in its own message, `1999-1-28`, with that message. -/
theorem C8_example_birthday_rejected (rt : Runtime) (svc : UserService) (sess : Session) :
    (NewUserHandler svc).Edit rt (some ⟨"", "1999-1-28", "", "", ""⟩) sess
      = .ret [.ctxString StatusOK "生日格式不对,必须以19或者20开头,正确例子1999-1-28"] := by
  have h : editCheck rt ⟨birthdayRegexTree⟩ "1999-1-28" birthdayFormatMsg
      = some [.ctxString StatusOK birthdayFormatMsg] := by
    have hm : Regexp.MatchString rt.unicode ⟨birthdayRegexTree⟩ "1999-1-28" = (false, none) := rfl
    simp [editCheck, hm]
  simp only [UserHandler.Edit, NewUserHandler, h]
  rfl

/-! ## C9 -/

/-- What `SignUp` does with the password, for a request with an email that matches the
email pattern and a matching confirmation: the handler calls the service, as the first
effect of the run and with the submitted email and password, exactly when the password
pattern accepts the password; otherwise its only effect is the answer
"密码至少8位,包含数字、特殊字符". -/
theorem SignUp_password_check (rt : Runtime) (svc : UserService) (req : SignUpReq)
    (hemail : ((NewUserHandler svc).emailExp.MatchString rt.unicode req.Email).1 = true)
    (hconfirm : req.ConfirmPassword = req.Password) :
    ((∃ e ∈ ((NewUserHandler svc).SignUp rt (some req)).trace, e.isSvcCall = true)
        ↔ acceptedPassword rt.unicode req.Password.toList = true)
    ∧ (acceptedPassword rt.unicode req.Password.toList = true →
        ((NewUserHandler svc).SignUp rt (some req)).trace.head?
          = some (.svcSignUp ⟨0, req.Email, req.Password, "", "", "", "", ""⟩))
    ∧ (acceptedPassword rt.unicode req.Password.toList = false →
        (NewUserHandler svc).SignUp rt (some req)
          = .ret [.ctxString StatusOK "密码至少8位,包含数字、特殊字符"]) := by
  have hpw : (NewUserHandler svc).passwordExp.MatchString rt.unicode req.Password
      = (acceptedPassword rt.unicode req.Password.toList, none) := by
    simp only [Regexp.MatchString, NewUserHandler, passwordRegex_scan]
  have hem : (NewUserHandler svc).emailExp.MatchString rt.unicode req.Email = (true, none) := by
    rw [← hemail]; rfl
  cases hacc : acceptedPassword rt.unicode req.Password.toList with
  | false =>
    have hrun : (NewUserHandler svc).SignUp rt (some req)
        = .ret [.ctxString StatusOK "密码至少8位,包含数字、特殊字符"] := by
      simp only [UserHandler.SignUp, hem, hpw, hacc, hconfirm]
      simp
    simp [hrun, Outcome.ret, Event.isSvcCall]
  | true =>
    have hrun : ∃ t, ((NewUserHandler svc).SignUp rt (some req)).trace
        = .svcSignUp ⟨0, req.Email, req.Password, "", "", "", "", ""⟩ :: t := by
      simp only [UserHandler.SignUp, hem, hpw, hacc, hconfirm, ne_eq, not_true_eq_false,
        Bool.not_true, Bool.false_eq_true, if_false]
      split_ifs <;> exact ⟨_, rfl⟩
    obtain ⟨t, ht⟩ := hrun
    simp [ht, Event.isSvcCall]

/-- On a password that does not end in a line feed the pattern accepts what the rule in
words accepts. -/
theorem acceptedPassword_without_line_feed (T : UnicodeTables) (cs : List Char)
    (h : cs.getLast? ≠ some '\n') : acceptedPassword T cs = strongPassword T cs := by
  simp [acceptedPassword, h]

/-- For every password that does not end in a line feed the rule in words is the rule of
the code: with a well-formed email and a matching confirmation, the handler calls the
service exactly when the password is strong, and otherwise only answers
"密码至少8位,包含数字、特殊字符". -/
theorem SignUp_password_rule_without_line_feed (rt : Runtime) (svc : UserService)
    (req : SignUpReq)
    (hemail : ((NewUserHandler svc).emailExp.MatchString rt.unicode req.Email).1 = true)
    (hconfirm : req.ConfirmPassword = req.Password)
    (hline : req.Password.toList.getLast? ≠ some '\n') :
    ((∃ e ∈ ((NewUserHandler svc).SignUp rt (some req)).trace, e.isSvcCall = true)
        ↔ strongPassword rt.unicode req.Password.toList = true)
    ∧ (strongPassword rt.unicode req.Password.toList = false →
        (NewUserHandler svc).SignUp rt (some req)
          = .ret [.ctxString StatusOK "密码至少8位,包含数字、特殊字符"]) := by
  have h := SignUp_password_check rt svc req hemail hconfirm
  rw [acceptedPassword_without_line_feed _ _ hline] at h
  exact ⟨h.1, h.2.2⟩

/-- C9 fails for a password with a line feed at its end: the request has a well-formed
email and a matching confirmation, the password `abcdef1!` followed by a line feed holds a
character that is neither letter, digit nor special, which the set of the pattern excludes,
and yet the password pattern matches, under every Unicode table, because its `$` matches
before a last line feed; the handler calls the service and registers the user. -/
theorem C9_line_feed_password_registered :
    ((NewUserHandler sampleService).emailExp.MatchString sampleRuntime.unicode "n@b.cc").1 = true
    ∧ (∀ T : UnicodeTables, strongPassword T "abcdef1!\n".toList = false
        ∧ CharIn T passwordChars '\n' = false
        ∧ ((NewUserHandler sampleService).passwordExp.MatchString T "abcdef1!\n").1 = true)
    ∧ ((NewUserHandler sampleService).SignUp sampleRuntime
        (some ⟨"n@b.cc", "abcdef1!\n", "abcdef1!\n"⟩)).trace
      = [.svcSignUp { Email := "n@b.cc", Password := "abcdef1!\n" },
         .daoInsert ⟨0, "n@b.cc",
           "$2a$10$N9qo8uLOickgx2ZMRZoMyeIjZAgcfl7p92ldGxad68LJZdL17lhWy", "", "", "", "", ""⟩,
         .ctxString StatusOK "注册成功"] := by
  refine ⟨by decide, ?_, by decide⟩
  intro T
  have hs : "abcdef1!\n".toList = ['a', 'b', 'c', 'd', 'e', 'f', '1', '!', '\n'] := by decide
  refine ⟨?_, ?_, ?_⟩
  · rw [hs]
    simp [strongPassword, isAsciiLetter, isSpecial, DigitClass]
  · rw [CharIn_passwordChars]
    simp [isAsciiLetter, isSpecial, DigitClass]
  · simp only [Regexp.MatchString, NewUserHandler]
    rw [passwordRegex_scan, acceptedPassword_iff, hs]
    refine ⟨['a', 'b', 'c', 'd', 'e', 'f', '1', '!'], ['\n'], by simp, Or.inr rfl, ?_⟩
    simp [strongPassword, isAsciiLetter, isSpecial, DigitClass]

/-! ## C10 -/

/-- C10 fails in `Profile`: with an int64 `userId` in the session and an error from the
service's `GetProfile`, the handler writes two bodies, the message "获取简介失败" and then the
JSON of the user that came with the error. -/
theorem C10_profile_writes_two_bodies (u : UserHandler) (sess : Session) (id : Int)
    (hs : sess "userId" = .int64 id) (he : (u.svc.GetProfile id).2 ≠ none) :
    (u.Profile sess).bodies =
      [.ctxString StatusOK "获取简介失败",
       .ctxJSON StatusOK (.profile
        ⟨(u.svc.GetProfile id).1.Email, (u.svc.GetProfile id).1.Birthday,
         (u.svc.GetProfile id).1.NickName, (u.svc.GetProfile id).1.Introduction,
         (u.svc.GetProfile id).1.Location⟩)] := by
  simp [UserHandler.Profile, hs, he, Outcome.bodies, Outcome.ret, Event.isBody]

/-- C10's failure at `sampleService`, whose `GetProfile` fails, with user 7 logged in. -/
theorem C10_profile_writes_two_bodies_witness :
    loggedIn "userId" = .int64 7 ∧ (sampleService.GetProfile 7).2 ≠ none
    ∧ ((NewUserHandler sampleService).Profile loggedIn).bodies.length = 2 :=
  ⟨by decide, by decide,
   by rw [C10_profile_writes_two_bodies (NewUserHandler sampleService) loggedIn 7
     (by decide) (by decide)]; rfl⟩

end webook
